import Mathlib

/-!
Shallow embedding of `reports/process_vulnerabilities.py` (class
`VulnerabilityNormalizer`): the per-tool report normalizers, the risk
scorer, the compliance mapper and the `process_all_reports` pipeline,
together with theorems about the specified properties.

Conventions of the embedding:
* a Python `dict.get(k, default)` on an optional JSON field is modelled
  by an `Option` field read with `Option.getD`;
* JSON numbers used as scores are modelled by `ℚ` (CVSS base scores may
  be fractional); counts are `ℕ`;
* `list.sort(key=..., reverse=True)` is a stable sort, and every stable
  sort computes the same list; it is embedded by `List.insertionSort`
  with the non-strict relation `b.severity_score ≤ a.severity_score`,
  which is stable in the same sense;
* the wall-clock timestamp (`datetime.utcnow()`) and the iteration
  order of Python's `set` in `generate_compliance_mapping` are explicit
  inputs of the embedding (`now`, `pySetList`).
-/

/-- The `severity_map` dictionary built in `VulnerabilityNormalizer.__init__`:
severity string → standardized weight.  `none` models an absent key, so
`(severity_map s).getD d` is Python's `self.severity_map.get(s, d)`. -/
def severity_map : String → Option ℚ
  | "CRITICAL" => some 10
  | "HIGH" => some 8
  | "MEDIUM" => some 5
  | "LOW" => some 3
  | "INFO" => some 1
  | "INFORMATIONAL" => some 1
  | "NEGLIGIBLE" => some 1
  | _ => none

/-- Python `str.upper()` (character-wise ASCII upper-casing, written
over the character list so that it reduces in the kernel). -/
def pyUpper (s : String) : String :=
  String.mk (s.data.map Char.toUpper)

/-- Python string slicing `s[:n]` (a slice never overruns: on a shorter
string it returns the whole string). -/
def pyTake (s : String) (n : Nat) : String :=
  String.mk (s.data.take n)

/-- Accumulator loop behind Python `str.split()` with no separator:
whitespace runs separate tokens and produce no empty tokens. -/
def pySplitChars (cur : List Char) : List Char → List String
  | [] => if cur.isEmpty then [] else [String.mk cur.reverse]
  | c :: cs =>
    if c.isWhitespace then
      if cur.isEmpty then pySplitChars [] cs
      else String.mk cur.reverse :: pySplitChars [] cs
    else pySplitChars (c :: cur) cs

/-- Python `str.split()` with no separator: split on whitespace runs,
dropping empty tokens (`''.split()` is `[]`). -/
def pySplit (s : String) : List String :=
  pySplitChars [] s.data

/-- Accumulator loop behind Python `s.split(sep)` for a one-character
separator: empty pieces are kept (`''.split(sep)` is `['']`). -/
def pySplitSepChars (sep : Char) (cur : List Char) : List Char → List String
  | [] => [String.mk cur.reverse]
  | c :: cs =>
    if c = sep then String.mk cur.reverse :: pySplitSepChars sep [] cs
    else pySplitSepChars sep (c :: cur) cs

/-- Python `s.split(sep)` for a one-character separator. -/
def pySplitSep (s : String) (sep : Char) : List String :=
  pySplitSepChars sep [] s.data

/-- An f-string renders the Python value `None` as the string `"None"`;
this is `dict.get(k)` with no default, used inside an f-string. -/
def pyOptStr (o : Option String) : String :=
  o.getD "None"

/-- `leadMatch l pat`: `pat` is an initial segment of `l`. -/
def leadMatch : List Char → List Char → Bool
  | _, [] => true
  | [], _ :: _ => false
  | c :: cs, p :: ps => c == p && leadMatch cs ps

/-- Python's substring test `pat in s` (contiguous occurrence). -/
def subSearch (pat : List Char) : List Char → Bool
  | [] => leadMatch [] pat
  | c :: cs => leadMatch (c :: cs) pat || subSearch pat cs

/-- Python `pat in s` on strings. -/
def pyInStr (pat s : String) : Bool :=
  subSearch pat.data s.data

/-- Fuel-bounded loop behind Python `s.replace(pat, repl)`: a greedy
left-to-right scan replacing every occurrence; `fuel` is the length of
the scanned list, enough for every step since each step consumes at
least one character (the pattern is never empty here). -/
def replaceFrom (pat repl : List Char) : Nat → List Char → List Char
  | 0, l => l
  | fuel + 1, l =>
    match l with
    | [] => []
    | c :: cs =>
      if leadMatch l pat then repl ++ replaceFrom pat repl fuel (l.drop pat.length)
      else c :: replaceFrom pat repl fuel cs

/-- Python `s.replace(pat, repl)` (all occurrences). -/
def pyReplace (s pat repl : String) : String :=
  String.mk (replaceFrom pat.data repl.data s.data.length s.data)

/-- One normalized vulnerability record.  The Python normalizers build
plain dicts whose key sets differ per tool; this structure is the union
of those key sets, a key a given tool does not set defaulting to
`""` / `0` / `[]`. -/
structure VulnRecord where
  id : String
  tool : String
  category : String
  type : String := ""
  title : String := ""
  description : String := ""
  severity : String
  severity_score : ℚ
  file : String := ""
  line : Nat := 0
  commit : String := ""
  rule : String := ""
  code_snippet : String := ""
  package : String := ""
  cvss_score : ℚ := 0
  cvss_vector : String := ""
  installed_version : String := ""
  fixed_version : String := ""
  target : String := ""
  url : String := ""
  method : String := ""
  parameter : String := ""
  attack : String := ""
  evidence : String := ""
  solution : String := ""
  remediation : String := ""
  cwe : List String := []
  owasp : List String := []
  compliance : List String := []
  references : List String := []
  deriving DecidableEq

/-- Result record of `calculate_risk_score`.  The zero-vulnerabilities
early return omits the `"info"` key, hence `info : Option ℕ`. -/
structure RiskMetrics where
  total : Nat
  critical : Nat
  high : Nat
  medium : Nat
  low : Nat
  info : Option Nat
  risk_score : Nat
  risk_level : String
  deriving DecidableEq

/-- `severity_counts[key] = severity_counts.get(key, 0) + 1`, the dict
update inside the counting loop of `calculate_risk_score`; the dict is
modelled as a total function defaulting to `0` (all keys the code ever
reads are initialized to `0`). -/
def bump (d : String → Nat) (key : String) : String → Nat :=
  fun s => if s = key then d key + 1 else d s

/-- The counting loop of `calculate_risk_score`: every record always
carries a `severity` key, so `vuln.get('severity', 'MEDIUM')` is the
field itself; `.upper()` is `pyUpper`. -/
def severityCounts (vulns : List VulnRecord) : String → Nat :=
  vulns.foldl (fun d v => bump d (pyUpper v.severity)) (fun _ => 0)

/-- `VulnerabilityNormalizer.calculate_risk_score`. -/
def calculate_risk_score (vulns : List VulnRecord) : RiskMetrics :=
  if vulns.isEmpty then
    { total := 0, critical := 0, high := 0, medium := 0, low := 0,
      info := none, risk_score := 0, risk_level := "LOW" }
  else
    let d := severityCounts vulns
    let risk_score :=
      d "CRITICAL" * 10 + d "HIGH" * 5 + d "MEDIUM" * 2 + d "LOW" * 1
    let risk_level :=
      if d "CRITICAL" > 0 then "CRITICAL"
      else if d "HIGH" > 5 then "HIGH"
      else if d "HIGH" > 0 then "MEDIUM-HIGH"
      else if d "MEDIUM" > 10 then "MEDIUM"
      else "LOW"
    { total := vulns.length,
      critical := d "CRITICAL",
      high := d "HIGH",
      medium := d "MEDIUM",
      low := d "LOW",
      info := some (d "INFO"),
      risk_score := risk_score,
      risk_level := risk_level }

/-- The first-match-wins threshold rule of §4.3, as a pure function of
the three counts (the reference function the risk level is compared
against). -/
def riskLevel (critical high medium : Nat) : String :=
  if critical > 0 then "CRITICAL"
  else if high > 5 then "HIGH"
  else if high > 0 then "MEDIUM-HIGH"
  else if medium > 10 then "MEDIUM"
  else "LOW"

/-- Number of records whose upper-cased severity equals `s`. -/
def countSeverity (vulns : List VulnRecord) (s : String) : Nat :=
  vulns.countP (fun v => pyUpper v.severity == s)

/-- Sum of the five severity buckets reported by `calculate_risk_score`
(the zero-record branch reports no `info` bucket, counted as `0`). -/
def bucketSum (m : RiskMetrics) : Nat :=
  m.critical + m.high + m.medium + m.low + m.info.getD 0

theorem severityCounts_spec (l : List VulnRecord) (d : String → Nat) (k : String) :
    l.foldl (fun d v => bump d (pyUpper v.severity)) d k
      = d k + l.countP (fun v => pyUpper v.severity == k) := by
  induction l generalizing d with
  | nil => simp
  | cons v t ih =>
    simp only [List.foldl_cons, List.countP_cons, ih]
    by_cases h : pyUpper v.severity = k
    · simp [bump, h]
      omega
    · have hb : (pyUpper v.severity == k) = false := by
        simpa using h
      have hk : ¬k = pyUpper v.severity := fun hk => h hk.symm
      simp [bump, hk, hb]


/-- One Gitleaks finding (keys read by `normalize_gitleaks`). -/
structure GitleaksFinding where
  Commit : Option String := none
  File : Option String := none
  RuleID : Option String := none
  Description : Option String := none
  Match : Option String := none
  StartLine : Option Nat := none
  deriving DecidableEq

/-- The `extra.metadata` object of a Semgrep result. -/
structure SemgrepMetadata where
  category : Option String := none
  source : Option String := none
  fix : Option String := none
  cwe : Option (List String) := none
  owasp : Option (List String) := none
  references : Option (List String) := none
  deriving DecidableEq

/-- The `start` object of a Semgrep result. -/
structure SemgrepStart where
  line : Option Nat := none
  deriving DecidableEq

/-- The `extra` object of a Semgrep result. -/
structure SemgrepExtra where
  severity : Option String := none
  message : Option String := none
  lines : Option String := none
  metadata : Option SemgrepMetadata := none
  deriving DecidableEq

/-- One entry of the `results` array of a Semgrep report. -/
structure SemgrepResult where
  check_id : Option String := none
  path : Option String := none
  start : Option SemgrepStart := none
  extra : Option SemgrepExtra := none
  deriving DecidableEq

/-- The `cvssv3` object of a Dependency-Check vulnerability. -/
structure DCCvssV3 where
  baseScore : Option ℚ := none
  attackVector : Option String := none
  deriving DecidableEq

/-- One entry of the `references` array of a Dependency-Check
vulnerability. -/
structure DCReference where
  url : Option String := none
  deriving DecidableEq

/-- One vulnerability of a Dependency-Check dependency. -/
structure DCVuln where
  name : Option String := none
  severity : Option String := none
  description : Option String := none
  cvssv3 : Option DCCvssV3 := none
  cwe : Option String := none
  references : Option (List DCReference) := none
  deriving DecidableEq

/-- One entry of the `dependencies` array of a Dependency-Check report;
`vulnerabilities := none` models an absent key (the code skips such a
dependency). -/
structure DCDependency where
  fileName : Option String := none
  vulnerabilities : Option (List DCVuln) := none
  deriving DecidableEq

/-- The `CVSS.nvd` object of a Trivy vulnerability. -/
structure TrivyCvssNvd where
  V3Score : Option ℚ := none
  deriving DecidableEq

/-- The `CVSS` object of a Trivy vulnerability. -/
structure TrivyCvss where
  nvd : Option TrivyCvssNvd := none
  deriving DecidableEq

/-- One vulnerability of a Trivy result. -/
structure TrivyVuln where
  VulnerabilityID : Option String := none
  Severity : Option String := none
  PkgName : Option String := none
  Description : Option String := none
  Title : Option String := none
  InstalledVersion : Option String := none
  FixedVersion : Option String := none
  CVSS : Option TrivyCvss := none
  References : Option (List String) := none
  deriving DecidableEq

/-- One entry of the `Results` array of a Trivy report.  The JSON key
`Type` is a Lean keyword, written `Type_` here. -/
structure TrivyResult where
  Target : Option String := none
  Type_ : Option String := none
  Vulnerabilities : Option (List TrivyVuln) := none
  deriving DecidableEq

/-- One entry of the `instances` array of a ZAP alert. -/
structure ZapInstance where
  uri : Option String := none
  method : Option String := none
  param : Option String := none
  attack : Option String := none
  evidence : Option String := none
  deriving DecidableEq

/-- One entry of the `alerts` array of a ZAP site. -/
structure ZapAlert where
  pluginid : Option String := none
  riskdesc : Option String := none
  name : Option String := none
  desc : Option String := none
  instances : Option (List ZapInstance) := none
  solution : Option String := none
  cweid : Option String := none
  wascid : Option String := none
  reference : Option String := none
  deriving DecidableEq

/-- One entry of the `site` array of a ZAP report. -/
structure ZapSite where
  alerts : Option (List ZapAlert) := none
  deriving DecidableEq

/-- A parsed report file.  JSON documents are duck-typed: each
normalizer reads only the keys it knows, so one row type with one
optional field per known top-level key covers every shape.  `asList`
is `some l` when the document itself is a JSON array (the Gitleaks
list form, `isinstance(data, list)`). -/
structure InputDoc where
  asList : Option (List GitleaksFinding) := none
  findings : Option (List GitleaksFinding) := none
  results : Option (List SemgrepResult) := none
  dependencies : Option (List DCDependency) := none
  Results : Option (List TrivyResult) := none
  site : Option (List ZapSite) := none
  deriving DecidableEq

/-- The `findings` extraction of `normalize_gitleaks`:
`data if isinstance(data, list) else data.get('findings', [])`. -/
def gitleaksFindings (data : InputDoc) : List GitleaksFinding :=
  match data.asList with
  | some l => l
  | none => data.findings.getD []

/-- The record built for one finding in the loop of
`normalize_gitleaks`. -/
def normGitleaksFinding (finding : GitleaksFinding) : VulnRecord :=
  { id := "GITLEAKS-" ++ pyTake (finding.Commit.getD (finding.File.getD "unknown")) 8
    tool := "Gitleaks"
    category := "Secrets"
    type := "Secret Exposure"
    title := "Secret detected: " ++ finding.RuleID.getD "Unknown"
    description := finding.Description.getD (finding.Match.getD "Secret found in repository")
    severity := "CRITICAL"
    severity_score := 10
    file := finding.File.getD "unknown"
    line := finding.StartLine.getD 0
    commit := finding.Commit.getD "N/A"
    rule := finding.RuleID.getD "unknown"
    remediation := "Remove the secret from version control and rotate credentials immediately."
    cwe := ["CWE-798"]
    owasp := ["A02:2021-Cryptographic Failures"]
    compliance := ["ISO 27001: A.9.4.3", "PCI-DSS: 6.5.3"] }

/-- `VulnerabilityNormalizer.normalize_gitleaks`. -/
def normalize_gitleaks (data : InputDoc) : List VulnRecord :=
  (gitleaksFindings data).map normGitleaksFinding

/-- The record built for one result in the loop of
`normalize_semgrep`. -/
def normSemgrepResult (result : SemgrepResult) : VulnRecord :=
  let extra := result.extra.getD {}
  let metadata := extra.metadata.getD {}
  let severity := pyUpper (extra.severity.getD "MEDIUM")
  { id := result.check_id.getD "SEMGREP-UNKNOWN"
    tool := "Semgrep"
    category := "SAST"
    type := metadata.category.getD "Code Quality"
    title := extra.message.getD "Security issue detected"
    description := metadata.source.getD (extra.message.getD "")
    severity := severity
    severity_score := (severity_map severity).getD 5
    file := result.path.getD "unknown"
    line := (result.start.getD {}).line.getD 0
    code_snippet := extra.lines.getD ""
    rule := result.check_id.getD "unknown"
    remediation := metadata.fix.getD "Review and fix the security issue"
    cwe := metadata.cwe.getD []
    owasp := metadata.owasp.getD []
    references := metadata.references.getD [] }

/-- `VulnerabilityNormalizer.normalize_semgrep`. -/
def normalize_semgrep (data : InputDoc) : List VulnRecord :=
  (data.results.getD []).map normSemgrepResult

/-- The record built for one vulnerability of one dependency in
`normalize_dependency_check`. -/
def normDCVuln (dep : DCDependency) (vuln_data : DCVuln) : VulnRecord :=
  let severity := pyUpper (vuln_data.severity.getD "MEDIUM")
  { id := vuln_data.name.getD "CVE-UNKNOWN"
    tool := "Dependency-Check"
    category := "SCA"
    type := "Vulnerable Dependency"
    title := pyOptStr vuln_data.name ++ " in " ++ dep.fileName.getD "unknown"
    description := vuln_data.description.getD "Known vulnerability in dependency"
    severity := severity
    severity_score :=
      (match vuln_data.cvssv3 with
       | some c => c.baseScore.getD ((severity_map severity).getD 5)
       | none => (severity_map severity).getD 5)
    file := dep.fileName.getD "unknown"
    package := dep.fileName.getD "unknown"
    cvss_score :=
      (match vuln_data.cvssv3 with
       | some c => c.baseScore.getD 0
       | none => 0)
    cvss_vector :=
      (match vuln_data.cvssv3 with
       | some c => c.attackVector.getD "NETWORK"
       | none => "NETWORK")
    cwe := [vuln_data.cwe.getD "CWE-1035"]
    remediation := "Update " ++ pyOptStr dep.fileName ++ " to a patched version"
    references := (vuln_data.references.getD []).map (fun ref => pyOptStr ref.url)
    compliance := ["ISO 27001: A.12.6.1", "PCI-DSS: 6.2"] }

/-- `VulnerabilityNormalizer.normalize_dependency_check`.  A dependency
whose `vulnerabilities` key is absent is skipped (`continue`). -/
def normalize_dependency_check (data : InputDoc) : List VulnRecord :=
  (data.dependencies.getD []).flatMap (fun dep =>
    match dep.vulnerabilities with
    | none => []
    | some vs => vs.map (normDCVuln dep))

/-- The record built for one vulnerability of one result in
`normalize_trivy`. -/
def normTrivyVuln (result : TrivyResult) (vuln_data : TrivyVuln) : VulnRecord :=
  let target := result.Target.getD "unknown"
  let severity := pyUpper (vuln_data.Severity.getD "MEDIUM")
  { id := vuln_data.VulnerabilityID.getD "TRIVY-UNKNOWN"
    tool := "Trivy"
    category := "Container Security"
    type := result.Type_.getD "OS Package"
    title := pyOptStr vuln_data.VulnerabilityID ++ " in " ++ vuln_data.PkgName.getD "unknown"
    description := vuln_data.Description.getD (vuln_data.Title.getD "Container vulnerability")
    severity := severity
    severity_score := (severity_map severity).getD 5
    package := vuln_data.PkgName.getD "unknown"
    installed_version := vuln_data.InstalledVersion.getD "unknown"
    fixed_version := vuln_data.FixedVersion.getD "Not available"
    target := target
    cvss_score :=
      (match vuln_data.CVSS with
       | some c =>
         (match c.nvd with
          | some n => n.V3Score.getD 0
          | none => 0)
       | none => 0)
    remediation := "Update " ++ pyOptStr vuln_data.PkgName ++ " from "
      ++ pyOptStr vuln_data.InstalledVersion ++ " to " ++ vuln_data.FixedVersion.getD "latest"
    references := vuln_data.References.getD []
    compliance := ["ISO 27001: A.12.6.1", "CIS Docker Benchmark"] }

/-- `VulnerabilityNormalizer.normalize_trivy`. -/
def normalize_trivy (data : InputDoc) : List VulnRecord :=
  (data.Results.getD []).flatMap (fun result =>
    (result.Vulnerabilities.getD []).map (normTrivyVuln result))

/-- The alerts read by `normalize_zap`:
`site = data.get('site', [{}])[0] if data.get('site') else {}` (an
empty `site` array is falsy, giving the empty site), then
`site.get('alerts', [])`. -/
def zapAlerts (data : InputDoc) : List ZapAlert :=
  let site : ZapSite :=
    match data.site with
    | some (s :: _) => s
    | _ => {}
  site.alerts.getD []

/-- One iteration of the alert loop of `normalize_zap`.  `none` models
an `IndexError` raised inside the `try` block: either
`riskdesc.split()[0]` on a whitespace-only risk description, or
`instances[0]` on a present-but-empty `instances` array. -/
def normZapAlert (alert : ZapAlert) : Option VulnRecord :=
  match (pySplit (alert.riskdesc.getD "Medium")).head?,
        (alert.instances.getD [{}]).head? with
  | some tok, some inst =>
    let risk := pyUpper tok
    some
      { id := "ZAP-" ++ alert.pluginid.getD "UNKNOWN"
        tool := "OWASP ZAP"
        category := "DAST"
        type := "Web Application Vulnerability"
        title := alert.name.getD "Security issue detected"
        description := alert.desc.getD "Web application vulnerability"
        severity := risk
        severity_score := (severity_map risk).getD 5
        url := inst.uri.getD "unknown"
        method := inst.method.getD "GET"
        parameter := inst.param.getD ""
        attack := inst.attack.getD ""
        evidence := inst.evidence.getD ""
        solution := alert.solution.getD "Review and remediate"
        remediation := alert.solution.getD "Review security best practices"
        cwe := ["CWE-" ++ alert.cweid.getD "0"]
        owasp := [alert.wascid.getD "OWASP-Unknown"]
        references := pySplitSep (alert.reference.getD "") (Char.ofNat 10)
        compliance := ["ISO 27001: A.14.2.1", "OWASP Top 10"] }
  | _, _ => none

/-- Run `g` over the list, aborting at the first failure.  Models the
loop inside the `try` block: an exception at any element discards every
record accumulated so far. -/
def mapMOpt {α β : Type} (g : α → Option β) : List α → Option (List β)
  | [] => some []
  | x :: xs =>
    match g x, mapMOpt g xs with
    | some y, some ys => some (y :: ys)
    | _, _ => none

/-- `VulnerabilityNormalizer.normalize_zap`.  The `except` branch
(returning `[]`) is the `getD []`. -/
def normalize_zap (data : InputDoc) : List VulnRecord :=
  (mapMOpt normZapAlert (zapAlerts data)).getD []

/-- The sort key relation of
`all_vulnerabilities.sort(key=lambda x: x.get('severity_score', 0), reverse=True)`:
`a` may come no later than `b` iff `b`'s score is at most `a`'s.  Every
record of this embedding carries the `severity_score` key, so the `0`
default of the lambda never fires. -/
def sortRel (a b : VulnRecord) : Prop :=
  b.severity_score ≤ a.severity_score

instance : DecidableRel sortRel :=
  fun a b => inferInstanceAs (Decidable (b.severity_score ≤ a.severity_score))

instance : IsTotal VulnRecord sortRel :=
  ⟨fun a b => le_total b.severity_score a.severity_score⟩

instance : IsTrans VulnRecord sortRel :=
  ⟨fun _ _ _ h1 h2 => le_trans h2 h1⟩

/-- The in-place stable descending sort of `process_all_reports`
(line 325).  Python's sort is stable; all stable sorts compute the same
list, embedded here by insertion sort on `sortRel`. -/
def sortVulns (l : List VulnRecord) : List VulnRecord :=
  List.insertionSort sortRel l

/-- One value of the `tool_summary` dict: `count`, `file`, and the
optional `status` key (only ever set to `"not_found"`). -/
structure ToolSummaryEntry where
  count : Nat
  file : String
  status : Option String := none
  deriving DecidableEq

/-- The `metadata` object of the normalized output. -/
structure NormalizedMeta where
  scan_date : String
  total_tools : Nat
  processed_tools : Nat
  pipeline_version : String
  deriving DecidableEq

/-- One value of the `compliance_mapping` dict. -/
structure ComplianceEntry where
  count : Nat
  vulnerability_ids : List String
  deriving DecidableEq

/-- The `compliance_mapping` dict (fixed five framework keys). -/
structure ComplianceMapping where
  ISO_27001 : ComplianceEntry
  PCI_DSS : ComplianceEntry
  OWASP_Top_10 : ComplianceEntry
  CWE_Top_25 : ComplianceEntry
  NIST_CSF : ComplianceEntry
  deriving DecidableEq

/-- The `normalized_data` document assembled by `process_all_reports`. -/
structure NormalizedData where
  metadata : NormalizedMeta
  risk_metrics : RiskMetrics
  tool_summary : List (String × ToolSummaryEntry)
  vulnerabilities : List VulnRecord
  compliance_mapping : ComplianceMapping
  deriving DecidableEq

/-- The reports directory: for each of the seven file names of the
`reports` dict of `process_all_reports`, the parsed document when the
file exists. -/
structure ReportsDir where
  gitleaks_report : Option InputDoc := none
  semgrep_report : Option InputDoc := none
  dependency_check_report : Option InputDoc := none
  trivy_dependencies : Option InputDoc := none
  trivy_image_scan : Option InputDoc := none
  trivy_report : Option InputDoc := none
  zap_report : Option InputDoc := none
  deriving DecidableEq

/-- `report_file.replace('-report.json', '')`, the `tool_summary`
key. -/
def toolKey (s : String) : String :=
  pyReplace s "-report.json" ""

/-- One iteration of the report loop of `process_all_reports`: the
normalized records of the tool (empty when the file is absent) and the
`tool_summary` entry (`status: not_found` when absent). -/
def runReport (name : String) (doc? : Option InputDoc)
    (f : InputDoc → List VulnRecord) :
    List VulnRecord × (String × ToolSummaryEntry) :=
  match doc? with
  | some doc =>
    (f doc, (toolKey name, { count := (f doc).length, file := name }))
  | none =>
    ([], (toolKey name, { count := 0, file := name, status := some "not_found" }))

/-- `any('ISO 27001' in str(c) for c in vuln.get('compliance', []))`,
the ISO marker test of `generate_compliance_mapping`.  `pySetList`
below models `list(set(...))` (an arbitrary dedup order, the Python
`set` being unordered). -/
def matchISO (v : VulnRecord) : Bool :=
  v.compliance.any (fun c => pyInStr "ISO 27001" c)

/-- `any('PCI-DSS' in str(c) for c in vuln.get('compliance', []))`. -/
def matchPCI (v : VulnRecord) : Bool :=
  v.compliance.any (fun c => pyInStr "PCI-DSS" c)

/-- `if vuln.get('owasp')`: a present, non-empty `owasp` list is truthy. -/
def matchOWASP (v : VulnRecord) : Bool :=
  !v.owasp.isEmpty

/-- `if vuln.get('cwe')`: a present, non-empty `cwe` list is truthy. -/
def matchCWE (v : VulnRecord) : Bool :=
  !v.cwe.isEmpty

/-- The id list one framework accumulates over the loop of
`generate_compliance_mapping` (the loop appends `vuln['id']` per
matching record in record order, which is filter-then-map). -/
def frameworkIds (p : VulnRecord → Bool) (vulns : List VulnRecord) : List String :=
  (vulns.filter p).map (·.id)

/-- The final comprehension of `generate_compliance_mapping`:
`count` is the length before deduplication, the ids are
`list(set(vulns))[:10]`. -/
def complianceEntry (pySetList : List String → List String)
    (l : List String) : ComplianceEntry :=
  { count := l.length, vulnerability_ids := (pySetList l).take 10 }

/-- `VulnerabilityNormalizer.generate_compliance_mapping`.  The
`NIST_CSF` bucket is initialized but no branch of the loop ever appends
to it. -/
def generate_compliance_mapping (pySetList : List String → List String)
    (vulns : List VulnRecord) : ComplianceMapping :=
  { ISO_27001 := complianceEntry pySetList (frameworkIds matchISO vulns)
    PCI_DSS := complianceEntry pySetList (frameworkIds matchPCI vulns)
    OWASP_Top_10 := complianceEntry pySetList (frameworkIds matchOWASP vulns)
    CWE_Top_25 := complianceEntry pySetList (frameworkIds matchCWE vulns)
    NIST_CSF := complianceEntry pySetList [] }

/-- `VulnerabilityNormalizer.process_all_reports`, output-file writing
aside.  `now` is the `datetime.utcnow().isoformat()` timestamp.  The
file named `dependency-check-report.json` is handed to
`normalize_trivy`, exactly as in the source's `reports` dict. -/
def process_all_reports (env : ReportsDir) (now : String)
    (pySetList : List String → List String) : NormalizedData :=
  let steps := [
    runReport "gitleaks-report.json" env.gitleaks_report normalize_gitleaks,
    runReport "semgrep-report.json" env.semgrep_report normalize_semgrep,
    runReport "dependency-check-report.json" env.dependency_check_report normalize_trivy,
    runReport "trivy-dependencies.json" env.trivy_dependencies normalize_trivy,
    runReport "trivy-image-scan.json" env.trivy_image_scan normalize_trivy,
    runReport "trivy-report.json" env.trivy_report normalize_trivy,
    runReport "zap-report.json" env.zap_report normalize_zap ]
  let all_vulnerabilities := (steps.map Prod.fst).flatten
  let tool_summary := steps.map Prod.snd
  let sorted := sortVulns all_vulnerabilities
  let risk_metrics := calculate_risk_score sorted
  { metadata :=
      { scan_date := now
        total_tools := 7
        processed_tools :=
          (tool_summary.filter (fun t => t.2.status != some "not_found")).length
        pipeline_version := "1.0.0" }
    risk_metrics := risk_metrics
    tool_summary := tool_summary
    vulnerabilities := sorted
    compliance_mapping := generate_compliance_mapping pySetList sorted }

theorem severityCounts_eq_countSeverity (vulns : List VulnRecord) (k : String) :
    severityCounts vulns k = countSeverity vulns k := by
  simpa [severityCounts, countSeverity] using severityCounts_spec vulns (fun _ => 0) k

/-- Claim C1: the risk level computed by `calculate_risk_score` is the
pure first-match-wins threshold function of the CRITICAL / HIGH /
MEDIUM severity counts; at counts `(1, 20, m)` the result is CRITICAL,
not HIGH; and for every count triple the function returns one of the
five levels (so exactly one, the five strings being distinct). -/
theorem risk_level_threshold_rule (vulns : List VulnRecord) (c h m : Nat) :
    (calculate_risk_score vulns).risk_level
        = riskLevel (countSeverity vulns "CRITICAL") (countSeverity vulns "HIGH")
            (countSeverity vulns "MEDIUM")
      ∧ riskLevel 1 20 m = "CRITICAL"
      ∧ riskLevel c h m ∈ ["CRITICAL", "HIGH", "MEDIUM-HIGH", "MEDIUM", "LOW"] := by
  refine ⟨?_, by simp [riskLevel], ?_⟩
  · rcases vulns with _ | ⟨v, t⟩
    · simp [calculate_risk_score, countSeverity, riskLevel]
    · simp [calculate_risk_score, riskLevel, severityCounts_eq_countSeverity]
  · unfold riskLevel
    split_ifs <;> simp

theorem five_bucket_count_sum (l : List VulnRecord)
    (hv : ∀ v ∈ l, pyUpper v.severity ∈ (["CRITICAL", "HIGH", "MEDIUM", "LOW", "INFO"] : List String)) :
    countSeverity l "CRITICAL" + countSeverity l "HIGH" + countSeverity l "MEDIUM"
      + countSeverity l "LOW" + countSeverity l "INFO" = l.length := by
  induction l with
  | nil => simp [countSeverity]
  | cons v t ih =>
    have hv0 : pyUpper v.severity = "CRITICAL" ∨ pyUpper v.severity = "HIGH"
        ∨ pyUpper v.severity = "MEDIUM" ∨ pyUpper v.severity = "LOW"
        ∨ pyUpper v.severity = "INFO" := by
      simpa using hv v (List.mem_cons_self v t)
    have ht := ih (fun w hw => hv w (List.mem_cons_of_mem _ hw))
    simp only [countSeverity, List.countP_cons, List.length_cons] at ht ⊢
    rcases hv0 with h | h | h | h | h <;> rw [h] <;> simp <;> omega

/-- Claim C2 (amended): `total` always equals the length of the record
list, and when every record's upper-cased severity lies in the closed
set {CRITICAL, HIGH, MEDIUM, LOW, INFO}, the five reported severity
buckets sum to `total`.  (Without that restriction the bucket-sum
equality fails: a record whose severity is outside the set is counted
in `total` but lands in a dict key the result never reports.) -/
theorem bucket_sum_eq_total_of_recognized (vulns : List VulnRecord)
    (hv : ∀ v ∈ vulns, pyUpper v.severity ∈ (["CRITICAL", "HIGH", "MEDIUM", "LOW", "INFO"] : List String)) :
    bucketSum (calculate_risk_score vulns) = (calculate_risk_score vulns).total
    ∧ (calculate_risk_score vulns).total = vulns.length := by
  rcases vulns with _ | ⟨v, t⟩
  · simp [calculate_risk_score, bucketSum]
  · have hsum := five_bucket_count_sum (v :: t) hv
    refine ⟨?_, by simp [calculate_risk_score]⟩
    simp only [calculate_risk_score, List.isEmpty_cons, bucketSum,
      severityCounts_eq_countSeverity, Option.getD_some]
    simpa using hsum

/-- A Semgrep report whose single result carries the severity string
`INFORMATIONAL` (a value `normalize_semgrep` passes through unchanged,
outside the five reported buckets). -/
def informationalDoc : InputDoc :=
  { results := some [{ check_id := some "rule.one",
                       extra := some { severity := some "INFORMATIONAL" } }] }

/-- Claim C2 counterexample: on the aggregated output of a report with
one INFORMATIONAL-severity record, `total` is the list length (1), but
the severity buckets sum to 0, so the claimed bucket-sum invariant
fails for severity strings outside {CRITICAL, HIGH, MEDIUM, LOW,
INFO}. -/
theorem bucket_sum_escapes_buckets :
    (calculate_risk_score (normalize_semgrep informationalDoc)).total
        = (normalize_semgrep informationalDoc).length
      ∧ bucketSum (calculate_risk_score (normalize_semgrep informationalDoc))
          ≠ (calculate_risk_score (normalize_semgrep informationalDoc)).total := by
  decide

/-- The record of a Gitleaks finding with no fields set (severity
CRITICAL by construction): a concrete input for the bucket-sum
theorem. -/
def sampleCritRec : VulnRecord := normGitleaksFinding {}

theorem bucket_sum_eq_total_of_recognized_witness :
    (∀ v ∈ [sampleCritRec],
        pyUpper v.severity ∈ (["CRITICAL", "HIGH", "MEDIUM", "LOW", "INFO"] : List String))
    ∧ bucketSum (calculate_risk_score [sampleCritRec])
        = (calculate_risk_score [sampleCritRec]).total
    ∧ (calculate_risk_score [sampleCritRec]).total = [sampleCritRec].length :=
  ⟨by decide, (bucket_sum_eq_total_of_recognized [sampleCritRec] (by decide)).1,
   (bucket_sum_eq_total_of_recognized [sampleCritRec] (by decide)).2⟩

/-- A Semgrep report whose single result carries the unrecognized
severity string `warning`. -/
def warningDoc : InputDoc :=
  { results := some [{ check_id := some "rule.two",
                       extra := some { severity := some "warning" } }] }

/-- Claim C3 counterexample: an unrecognized severity string is NOT
coerced to MEDIUM — `normalize_semgrep` upper-cases `warning` to
`WARNING` and stores it unchanged in the record's severity field
(while the score falls back to 5), so the severity set is not
closed. -/
theorem unrecognized_severity_not_coerced :
    (normalize_semgrep warningDoc).map (fun v => v.severity) = ["WARNING"]
      ∧ (normalize_semgrep warningDoc).map (fun v => v.severity_score) = [5]
      ∧ "WARNING" ∉ (["CRITICAL", "HIGH", "MEDIUM", "LOW", "INFO"] : List String) := by
  decide

/-- Claim C3 (amended): the Semgrep and ZAP normalizers upper-case the
input severity string and pass it through unchanged in the record's
severity field; only `severity_score` falls back to 5 (the MEDIUM
weight) when the string is not in the severity table. -/
theorem severity_passthrough (r : SemgrepResult) (a : ZapAlert) (v : VulnRecord) :
    (normSemgrepResult r).severity = pyUpper ((r.extra.getD {}).severity.getD "MEDIUM")
    ∧ (severity_map (normSemgrepResult r).severity = none →
        (normSemgrepResult r).severity_score = 5)
    ∧ (normZapAlert a = some v →
        v.severity = pyUpper ((pySplit (a.riskdesc.getD "Medium")).headD "")
        ∧ (severity_map v.severity = none → v.severity_score = 5)) := by
  refine ⟨rfl, ?_, ?_⟩
  · intro hnone
    have hsev : (normSemgrepResult r).severity
        = pyUpper ((r.extra.getD {}).severity.getD "MEDIUM") := rfl
    show (severity_map (pyUpper ((r.extra.getD {}).severity.getD "MEDIUM"))).getD 5 = 5
    rw [hsev] at hnone
    rw [hnone]
    rfl
  · intro hv
    unfold normZapAlert at hv
    rcases htok : (pySplit (a.riskdesc.getD "Medium")).head? with _ | ⟨tok⟩ <;>
      rcases hinst : (a.instances.getD [{}]).head? with _ | ⟨inst⟩ <;>
      rw [htok, hinst] at hv <;> simp only [] at hv
    · cases hv
    · cases hv
    · cases hv
    · have hrec := Option.some.inj hv
      subst hrec
      constructor
      · show pyUpper tok = pyUpper ((pySplit (a.riskdesc.getD "Medium")).headD "")
        rw [List.headD_eq_head?_getD, htok]
        rfl
      · intro hnone
        show (severity_map (pyUpper tok)).getD 5 = 5
        rw [show severity_map (pyUpper tok) = none from hnone]
        rfl

/-- A ZAP alert with an unrecognized compound risk description. -/
def bogusAlert : ZapAlert := { riskdesc := some "Bogus risk" }

/-- The record `normZapAlert` produces for `bogusAlert`. -/
def bogusZapVuln : VulnRecord := (normZapAlert bogusAlert).getD sampleCritRec

theorem severity_passthrough_witness :
    severity_map (normSemgrepResult { extra := some { severity := some "warning" } }).severity = none
    ∧ (normSemgrepResult { extra := some { severity := some "warning" } }).severity_score = 5
    ∧ normZapAlert bogusAlert = some bogusZapVuln
    ∧ bogusZapVuln.severity = "BOGUS"
    ∧ severity_map bogusZapVuln.severity = none
    ∧ bogusZapVuln.severity_score = 5 := by
  have h := severity_passthrough { extra := some { severity := some "warning" } }
    bogusAlert bogusZapVuln
  exact ⟨by decide, h.2.1 (by decide), by decide, by decide, by decide,
    (h.2.2 (by decide)).2 (by decide)⟩

theorem mapMOpt_eq_none {α β : Type} (g : α → Option β) {l : List α} {a : α}
    (ha : a ∈ l) (hg : g a = none) : mapMOpt g l = none := by
  induction l with
  | nil => cases ha
  | cons x xs ih =>
    rcases List.mem_cons.mp ha with rfl | hx
    · simp [mapMOpt, hg]
    · rw [mapMOpt, ih hx]
      rcases g x with _ | y <;> rfl

/-- Claim C10: malformed-input containment in `normalize_zap` is per
report, not per alert — if any alert of the report has an empty
`riskdesc` string (so `riskdesc.split()[0]` raises), the normalizer
returns the empty list, discarding every alert of that report,
well-formed ones included; the exception never reaches the caller. -/
theorem zap_malformed_alert_discards_report (data : InputDoc) (a : ZapAlert)
    (ha : a ∈ zapAlerts data) (hr : a.riskdesc = some "") :
    normalize_zap data = [] := by
  have hnone : normZapAlert a = none := by
    rw [normZapAlert, hr]
    rfl
  rw [normalize_zap, mapMOpt_eq_none normZapAlert ha hnone]
  rfl

/-- A well-formed high-risk ZAP alert. -/
def goodAlert : ZapAlert :=
  { riskdesc := some "High (Medium)", pluginid := some "2",
    name := some "XSS" }

/-- A ZAP alert whose `riskdesc` is the empty string. -/
def emptyRiskAlert : ZapAlert := { riskdesc := some "", pluginid := some "1" }

/-- A ZAP report holding one well-formed and one malformed alert. -/
def mixedZapDoc : InputDoc :=
  { site := some [{ alerts := some [goodAlert, emptyRiskAlert] }] }

theorem zap_malformed_alert_discards_report_witness :
    emptyRiskAlert ∈ zapAlerts mixedZapDoc
    ∧ emptyRiskAlert.riskdesc = some ""
    ∧ normalize_zap mixedZapDoc = []
    ∧ normalize_zap { site := some [{ alerts := some [goodAlert] }] } ≠ [] :=
  ⟨by decide, by decide,
   zap_malformed_alert_discards_report mixedZapDoc emptyRiskAlert (by decide) (by decide),
   by decide⟩

/-- Claim C8: every record produced by `normalize_gitleaks` has
severity CRITICAL, severity score 10, the hardcoded
credential-rotation remediation text, and an id synthesized from an
8-character prefix of the finding's `Commit` field, falling back to
its `File` field (then to `"unknown"`). -/
theorem gitleaks_record_shape (data : InputDoc) (v : VulnRecord)
    (hv : v ∈ normalize_gitleaks data) :
    v.severity = "CRITICAL"
    ∧ v.severity_score = 10
    ∧ v.remediation = "Remove the secret from version control and rotate credentials immediately."
    ∧ ∃ f ∈ gitleaksFindings data,
        v.id = "GITLEAKS-" ++ pyTake (f.Commit.getD (f.File.getD "unknown")) 8 := by
  rcases List.mem_map.mp hv with ⟨f, hf, rfl⟩
  exact ⟨rfl, rfl, rfl, f, hf, rfl⟩

/-- A Gitleaks finding with a full commit hash. -/
def commitFinding : GitleaksFinding :=
  { Commit := some "abcdef0123456789", RuleID := some "aws-key" }

theorem gitleaks_record_shape_witness :
    normGitleaksFinding commitFinding ∈ normalize_gitleaks { asList := some [commitFinding] }
    ∧ (normGitleaksFinding commitFinding).severity = "CRITICAL"
    ∧ (normGitleaksFinding commitFinding).severity_score = 10
    ∧ (normGitleaksFinding commitFinding).id = "GITLEAKS-abcdef01" := by
  have h := gitleaks_record_shape { asList := some [commitFinding] }
    (normGitleaksFinding commitFinding) (by decide)
  exact ⟨by decide, h.1, h.2.1, by decide⟩

/-- Claim C7: the aggregator's final vulnerability list is sorted by
severity score in descending order (`sortRel` relates `a` before `b`
iff `b.severity_score ≤ a.severity_score`), the sorted list is a
permutation of the input, the sort is stable (a pair in input order
with equal scores stays a sublist of the output), and the pipeline's
`vulnerabilities` list is such a sorted list.  Determinism of a rerun
is the pipeline-level statement of claim C9. -/
theorem aggregator_sort_stable (l : List VulnRecord) (a b : VulnRecord)
    (env : ReportsDir) (now : String) (f : List String → List String) :
    List.Sorted sortRel (sortVulns l)
    ∧ List.Perm (sortVulns l) l
    ∧ (a.severity_score = b.severity_score →
        List.Sublist [a, b] l → List.Sublist [a, b] (sortVulns l))
    ∧ List.Sorted sortRel ((process_all_reports env now f).vulnerabilities) := by
  refine ⟨List.sorted_insertionSort sortRel l, List.perm_insertionSort sortRel l, ?_, ?_⟩
  · intro hab hsub
    exact List.pair_sublist_insertionSort (le_of_eq hab.symm) hsub
  · exact List.sorted_insertionSort sortRel _

/-- Two records with equal score 8, in concatenation order A then B. -/
def stableRecA : VulnRecord :=
  { id := "A", tool := "T", category := "C", severity := "HIGH", severity_score := 8 }

/-- See `stableRecA`. -/
def stableRecB : VulnRecord :=
  { id := "B", tool := "T", category := "C", severity := "HIGH", severity_score := 8 }

/-- A low-score record placed before the pair, so the sort must move
records without swapping the equal-score pair. -/
def stableRecLow : VulnRecord :=
  { id := "L", tool := "T", category := "C", severity := "LOW", severity_score := 3 }

/-- An unsorted concatenation with an equal-score pair. -/
def stableList : List VulnRecord := [stableRecLow, stableRecA, stableRecB]

theorem aggregator_sort_stable_witness :
    stableRecA.severity_score = stableRecB.severity_score
    ∧ List.Sublist [stableRecA, stableRecB] stableList
    ∧ List.Sublist [stableRecA, stableRecB] (sortVulns stableList)
    ∧ sortVulns stableList = [stableRecA, stableRecB, stableRecLow] :=
  ⟨by decide, by decide,
   (aggregator_sort_stable stableList stableRecA stableRecB {} "t" List.dedup).2.2.1
     (by decide) (by decide),
   by decide⟩

/-- Claim C9: for a fixed reports directory, the `vulnerabilities`,
`risk_metrics` and `tool_summary` outputs are independent of the two
nondeterministic inputs — the wall-clock timestamp and the `set`
iteration order used by the compliance sampler — so two runs on the
same inputs produce identical values for all three (the timestamp only
ever enters `metadata.scan_date`, the set order only
`compliance_mapping`). -/
theorem pipeline_deterministic (env : ReportsDir) (t1 t2 : String)
    (f1 f2 : List String → List String) :
    (process_all_reports env t1 f1).vulnerabilities
        = (process_all_reports env t2 f2).vulnerabilities
    ∧ (process_all_reports env t1 f1).risk_metrics
        = (process_all_reports env t2 f2).risk_metrics
    ∧ (process_all_reports env t1 f1).tool_summary
        = (process_all_reports env t2 f2).tool_summary :=
  ⟨rfl, rfl, rfl⟩

/-- A dependency-scan report in the `{dependencies: [...]}` shape: one
dependency carrying two vulnerabilities of severities HIGH and MEDIUM,
no CVSS override. -/
def depShapedDoc : InputDoc :=
  { dependencies := some [
      { fileName := some "libfoo-1.0.jar",
        vulnerabilities := some [
          { name := some "CVE-2024-0001", severity := some "HIGH" },
          { name := some "CVE-2024-0002", severity := some "MEDIUM" } ] } ] }

/-- The reports directory holding only `dependency-check-report.json`,
with the `{dependencies: [...]}`-shaped document above. -/
def depShapedEnv : ReportsDir := { dependency_check_report := some depShapedDoc }

/-- Claim C4 counterexample: end-to-end, the pipeline hands
`dependency-check-report.json` to `normalize_trivy`, which reads the
`Results` key; a `{dependencies: [...]}`-shaped report with two
vulnerabilities therefore produces zero records (not the claimed two),
and the risk level stays LOW. -/
theorem dependency_shaped_report_yields_nothing :
    (process_all_reports depShapedEnv "t" List.dedup).vulnerabilities = []
    ∧ (process_all_reports depShapedEnv "t" List.dedup).vulnerabilities.length ≠ 2
    ∧ (process_all_reports depShapedEnv "t" List.dedup).risk_metrics.risk_level ≠ "MEDIUM-HIGH"
    ∧ normalize_dependency_check depShapedDoc ≠ [] := by
  decide

/-- The same two-vulnerability dependency scan in the Trivy
`{Results: [...]}` shape the pipeline actually parses. -/
def trivyShapedDoc : InputDoc :=
  { Results := some [
      { Target := some "requirements.txt",
        Vulnerabilities := some [
          { VulnerabilityID := some "CVE-2024-0001", Severity := some "HIGH" },
          { VulnerabilityID := some "CVE-2024-0002", Severity := some "MEDIUM" } ] } ] }

/-- The reports directory holding only `dependency-check-report.json`,
with the Trivy-shaped document above. -/
def trivyShapedEnv : ReportsDir := { dependency_check_report := some trivyShapedDoc }

/-- Claim C4 (amended): the record shapes and aggregate numbers of the
claim are right, but they are reached through the Trivy normalizer:
applied directly, `normalize_dependency_check` maps the
`{dependencies: [...]}` report to two records with scores 8 and 5;
end-to-end, the pipeline parses the dependency-check file with
`normalize_trivy`, so the claimed outcome (two records scored 8 and 5,
ordered [HIGH, MEDIUM], risk score 7, risk level MEDIUM-HIGH) holds
for a `{Results: [...]}`-shaped report, while a
`{dependencies: [...]}`-shaped one yields zero records. -/
theorem dependency_scan_end_to_end :
    ((normalize_dependency_check depShapedDoc).map
        (fun v => (v.severity, v.severity_score)) = [("HIGH", 8), ("MEDIUM", 5)])
    ∧ (process_all_reports depShapedEnv "t" List.dedup).vulnerabilities = []
    ∧ ((process_all_reports trivyShapedEnv "t" List.dedup).vulnerabilities.map
        (fun v => (v.severity, v.severity_score)) = [("HIGH", 8), ("MEDIUM", 5)])
    ∧ (process_all_reports trivyShapedEnv "t" List.dedup).risk_metrics.risk_score = 7
    ∧ (process_all_reports trivyShapedEnv "t" List.dedup).risk_metrics.risk_level
        = "MEDIUM-HIGH" := by
  decide

/-- Two Gitleaks findings, the only report present in the C5
scenario. -/
def secretsOnlyEnv : ReportsDir :=
  { gitleaks_report := some { asList := some [
      { Commit := some "abcdef0123456789", RuleID := some "aws-key" },
      { File := some "config/settings.py", RuleID := some "generic" } ] } }

/-- Claim C5 counterexample: with only the secrets report present, the
`reports` table has seven files, so `tool_summary` marks six entries
(not four) with status `not_found`. -/
theorem secrets_only_not_found_count :
    ((process_all_reports secretsOnlyEnv "t" List.dedup).tool_summary.filter
        (fun t => t.2.status == some "not_found")).length = 6
    ∧ ((process_all_reports secretsOnlyEnv "t" List.dedup).tool_summary.filter
        (fun t => t.2.status == some "not_found")).length ≠ 4 := by
  decide

/-- Claim C5 (amended): with only the secrets-scan file present,
holding 2 findings (CRITICAL by construction), the risk metrics are
total 2, critical 2, high/medium/low 0, risk score 20, risk level
CRITICAL — and `tool_summary` marks the six other report-file entries
(semgrep, dependency-check, trivy-dependencies.json,
trivy-image-scan.json, trivy, zap) with count 0 and status
`not_found`. -/
theorem secrets_only_scenario :
    (process_all_reports secretsOnlyEnv "t" List.dedup).risk_metrics
        = { total := 2, critical := 2, high := 0, medium := 0, low := 0,
            info := some 0, risk_score := 20, risk_level := "CRITICAL" }
    ∧ ((process_all_reports secretsOnlyEnv "t" List.dedup).tool_summary.filter
        (fun t => t.2.status == some "not_found")).map Prod.fst
        = ["semgrep", "dependency-check", "trivy-dependencies.json",
           "trivy-image-scan.json", "trivy", "zap"]
    ∧ ((process_all_reports secretsOnlyEnv "t" List.dedup).tool_summary.filter
        (fun t => t.2.status == some "not_found")).map (fun t => t.2.count)
        = [0, 0, 0, 0, 0, 0] := by
  decide

theorem compliance_entry_spec (pySetList : List String → List String)
    (vulns : List VulnRecord) (p : VulnRecord → Bool) (x : String)
    (hset : ∀ (l : List String) (y : String), y ∈ pySetList l ↔ y ∈ l) :
    (complianceEntry pySetList (frameworkIds p vulns)).count = (vulns.filter p).length
    ∧ (x ∈ (complianceEntry pySetList (frameworkIds p vulns)).vulnerability_ids →
        ∃ v ∈ vulns, p v = true ∧ v.id = x)
    ∧ (∀ v ∈ vulns, p v = true → v.id ∈ pySetList (frameworkIds p vulns))
    ∧ (complianceEntry pySetList (frameworkIds p vulns)).vulnerability_ids.length ≤ 10 := by
  refine ⟨by simp [complianceEntry, frameworkIds], ?_, ?_, ?_⟩
  · intro hx
    have hx2 : x ∈ pySetList (frameworkIds p vulns) := List.mem_of_mem_take hx
    have hx3 : x ∈ frameworkIds p vulns := (hset _ x).mp hx2
    rcases List.mem_map.mp hx3 with ⟨v, hv, rfl⟩
    rcases List.mem_filter.mp hv with ⟨hv1, hv2⟩
    exact ⟨v, hv1, hv2, rfl⟩
  · intro v hv hp
    refine (hset _ v.id).mpr ?_
    exact List.mem_map.mpr ⟨v, List.mem_filter.mpr ⟨hv, hp⟩, rfl⟩
  · exact List.length_take_le 10 _

/-- Claim C6 (amended): the compliance mapper collects record ids for
only four of the five frameworks — ISO 27001 and PCI-DSS by marker
substring in the `compliance` tags, OWASP Top 10 and CWE Top 25 by a
non-empty `owasp` / `cwe` list — each entry holding exactly the
matching records' ids (sound and complete at the deduplicated list,
sample truncated to at most 10); the `NIST_CSF` bucket is never
appended to, so a NIST-tagged record is not collected and that entry
is always count 0 with no ids. -/
theorem compliance_mapping_four_frameworks (pySetList : List String → List String)
    (vulns : List VulnRecord) (p : VulnRecord → Bool) (e : ComplianceEntry) (x : String)
    (hset : ∀ (l : List String) (y : String), y ∈ pySetList l ↔ y ∈ l)
    (hpe : (p, e) ∈ [
        (matchISO, (generate_compliance_mapping pySetList vulns).ISO_27001),
        (matchPCI, (generate_compliance_mapping pySetList vulns).PCI_DSS),
        (matchOWASP, (generate_compliance_mapping pySetList vulns).OWASP_Top_10),
        (matchCWE, (generate_compliance_mapping pySetList vulns).CWE_Top_25)]) :
    e.count = (vulns.filter p).length
    ∧ (x ∈ e.vulnerability_ids → ∃ v ∈ vulns, p v = true ∧ v.id = x)
    ∧ (∀ v ∈ vulns, p v = true → v.id ∈ pySetList (frameworkIds p vulns))
    ∧ e.vulnerability_ids.length ≤ 10
    ∧ (generate_compliance_mapping pySetList vulns).NIST_CSF.count = 0
    ∧ (generate_compliance_mapping pySetList vulns).NIST_CSF.vulnerability_ids = [] := by
  have hnil : pySetList [] = [] := by
    refine List.eq_nil_iff_forall_not_mem.mpr fun y hy => ?_
    simpa using (hset [] y).mp hy
  have hnist1 : (generate_compliance_mapping pySetList vulns).NIST_CSF.count = 0 := rfl
  have hnist2 :
      (generate_compliance_mapping pySetList vulns).NIST_CSF.vulnerability_ids = [] := by
    show (pySetList []).take 10 = []
    rw [hnil]
    rfl
  simp only [List.mem_cons, List.not_mem_nil, or_false, Prod.mk.injEq] at hpe
  rcases hpe with ⟨rfl, rfl⟩ | ⟨rfl, rfl⟩ | ⟨rfl, rfl⟩ | ⟨rfl, rfl⟩ <;>
    exact ⟨(compliance_entry_spec pySetList vulns _ x hset).1,
      (compliance_entry_spec pySetList vulns _ x hset).2.1,
      (compliance_entry_spec pySetList vulns _ x hset).2.2.1,
      (compliance_entry_spec pySetList vulns _ x hset).2.2.2,
      hnist1, hnist2⟩

/-- A record carrying a NIST CSF compliance marker (and nothing
else). -/
def nistRec : VulnRecord :=
  { id := "NIST-1", tool := "T", category := "C", severity := "HIGH",
    severity_score := 8, compliance := ["NIST CSF: PR.AC-1"] }

/-- Claim C6 counterexample: a record tagged with a NIST CSF marker is
NOT collected under the `NIST_CSF` framework — that bucket stays count
0 with no ids. -/
theorem nist_marker_not_collected :
    "NIST CSF: PR.AC-1" ∈ nistRec.compliance
    ∧ (generate_compliance_mapping List.dedup [nistRec]).NIST_CSF.count = 0
    ∧ (generate_compliance_mapping List.dedup [nistRec]).NIST_CSF.vulnerability_ids = [] := by
  decide

theorem compliance_mapping_four_frameworks_witness :
    (∀ (l : List String) (y : String), y ∈ List.dedup l ↔ y ∈ l)
    ∧ (generate_compliance_mapping List.dedup [sampleCritRec]).ISO_27001.count = 1
    ∧ "GITLEAKS-unknown"
        ∈ (generate_compliance_mapping List.dedup [sampleCritRec]).ISO_27001.vulnerability_ids
    ∧ (∃ v ∈ [sampleCritRec], matchISO v = true ∧ v.id = "GITLEAKS-unknown")
    ∧ (generate_compliance_mapping List.dedup [sampleCritRec]).NIST_CSF.vulnerability_ids
        = [] := by
  have h := compliance_mapping_four_frameworks List.dedup [sampleCritRec] matchISO
    ((generate_compliance_mapping List.dedup [sampleCritRec]).ISO_27001) "GITLEAKS-unknown"
    (fun l y => List.mem_dedup) (List.mem_cons_self _ _)
  exact ⟨fun l y => List.mem_dedup, by decide, by decide, h.2.1 (by decide), h.2.2.2.2.2⟩
